import Mathlib

/-!
# The FreeRTOS memory primitives of the Go runtime

A shallow embedding of `src/pkg/runtime/mem_freertos.c`.  The file defines the
seven operating-system memory primitives of the runtime (`runtime·SysAlloc`,
`runtime·SysUnused`, `runtime·SysUsed`, `runtime·SysFree`, `runtime·SysFault`,
`runtime·SysReserve`, `runtime·SysMap`).  Five of them call `runtime·throw`
with a fixed message, two of them only mark their parameters as used.

C functions become state-passing functions `State → Outcome α`.  Pointers
(`void*`, `uint64*`, `bool*`) are addresses, that is natural numbers, and
`nil` is address `0`.  `uintptr` sizes are natural numbers: the file performs
no arithmetic on them, so no wrap-around can occur.
-/

set_option linter.unusedVariables false

namespace runtime

/-! ## Data model -/

/-- Modelled from the spec: a live allocation of section 3 (an address range,
a base address and a length in bytes) together with the accounting counter it
was charged to.  The C file declares no such record. -/
structure Allocation where
  base : Nat
  len : Nat
  stat : Nat
deriving DecidableEq, Repr

/-- Modelled from the spec: the process state the primitives act on, following
section 3.  The C file declares no state of its own; it receives pointers into
the state of its caller.  `poolBase` and `poolSize` describe the single fixed
memory pool, `live` the ranges currently allocated from it, `counters` the
`uint64` accounting cells (address of the cell, value), `flags` the `bool`
cells a `bool *reserved` may point to, and `mem` the bytes of the pool. -/
structure State where
  poolBase : Nat
  poolSize : Nat
  live : List Allocation
  counters : List (Nat × Nat)
  flags : List (Nat × Bool)
  mem : List Nat
deriving DecidableEq, Repr

/-- Result of running a C function: either it returns a value to its caller,
or the process is terminated by `runtime·throw` with a message.  In both cases
the state reached is recorded, so that writes made before an abort are
visible. -/
inductive Outcome (α : Type) where
  | returned (val : α) (s : State)
  | thrown (msg : String) (s : State)
deriving DecidableEq, Repr

/-- A C function body: a state transformer that may abort. -/
def Exec (α : Type) : Type := State → Outcome α

/-- Sequencing of C statements: a statement after an abort is not executed. -/
def Exec.bind {α β : Type} (m : Exec α) (f : α → Exec β) : Exec β :=
  fun s =>
    match m s with
    | .returned a s' => f a s'
    | .thrown msg s' => .thrown msg s'

instance : Monad Exec where
  pure a := fun s => .returned a s
  bind := Exec.bind

/-- The message of an abort, if the outcome is an abort. -/
def Outcome.abortMsg {α : Type} : Outcome α → Option String
  | .returned _ _ => none
  | .thrown msg _ => some msg

/-- The state in which the function returned or aborted. -/
def Outcome.state {α : Type} : Outcome α → State
  | .returned _ s => s
  | .thrown _ s => s

/-- Whether the function returned to its caller. -/
def Outcome.isReturned {α : Type} : Outcome α → Bool
  | .returned _ _ => true
  | .thrown _ _ => false

/-- Modelled from the spec: `runtime·throw` is declared in `runtime.h` and
defined elsewhere in the runtime, not in this file.  Section 6: it produces a
human-readable message and then terminates the process, with no recovery
path.  It never returns to its caller and does not touch the state. -/
def throw (msg : String) : Exec Unit :=
  fun s => .thrown msg s

/-- Modelled from the spec: the macro `USED` is not defined in this file.  It is
the Plan 9 C idiom that marks a parameter as deliberately unused: its argument
is evaluated for no effect (`(void)x`), nothing is read or written.  This is
the meaning of the idiom in the C dialect of the runtime, not a reading of the
spec's sentences about `Unused` and `Used`. -/
def USED {α : Type} (_x : α) : Exec Unit :=
  pure ()

/-- The null pointer. -/
def nil : Nat := 0

/-! ## The seven primitives, as written in `mem_freertos.c` -/

/-- C source: `void* runtime·SysAlloc(uintptr n, uint64 *stat)` -/
def SysAlloc (n : Nat) (stat : Nat) : Exec Nat := do
  throw "runtime: SysAlloc not implemented on freertos"
  return nil

/-- C source: `void runtime·SysUnused(void *v, uintptr n)` -/
def SysUnused (v : Nat) (n : Nat) : Exec Unit := do
  USED v
  USED n

/-- C source: `void runtime·SysUsed(void *v, uintptr n)` -/
def SysUsed (v : Nat) (n : Nat) : Exec Unit := do
  USED v
  USED n

/-- C source: `void runtime·SysFree(void *v, uintptr n, uint64 *stat)` -/
def SysFree (v : Nat) (n : Nat) (stat : Nat) : Exec Unit := do
  throw "runtime: SysFree not implemented on freertos"

/-- C source: `void runtime·SysFault(void *v, uintptr n)` -/
def SysFault (v : Nat) (n : Nat) : Exec Unit := do
  throw "runtime: SysFault not implemented on freertos"

/-- C source: `void* runtime·SysReserve(void *v, uintptr n, bool *reserved)` -/
def SysReserve (v : Nat) (n : Nat) (reserved : Nat) : Exec Nat := do
  throw "runtime: SysReserve not implemented on freertos"
  return nil

/-- C source: `void runtime·SysMap(void *v, uintptr n, bool reserved, uint64 *stat)` -/
def SysMap (v : Nat) (n : Nat) (reserved : Bool) (stat : Nat) : Exec Unit := do
  throw "runtime: SysMap not implemented on freertos"

/-! ## Notions of the specification used to state the properties -/

/-- Notion of the spec: the value of the accounting counter a `uint64 *stat`
points to; a cell that was never written holds zero (section 3: counters are
initialized to zero at runtime start). -/
def counter (s : State) (stat : Nat) : Nat :=
  (s.counters.lookup stat).getD 0

/-- Notion of the spec: the value of the `bool` cell a `bool *reserved`
points to, if it was ever written. -/
def flag (s : State) (reserved : Nat) : Option Bool :=
  s.flags.lookup reserved

/-- Notion of the spec: the sum of the sizes of the live allocations charged
to the counter `stat` (section 8, first property). -/
def liveBytes (s : State) (stat : Nat) : Nat :=
  ((s.live.filter (fun al => al.stat == stat)).map (fun al => al.len)).sum

/-- Notion of the spec: the range `(v, n)` is a currently live allocation,
with exactly this base and exactly this size. -/
def isLive (s : State) (v : Nat) (n : Nat) : Bool :=
  s.live.any (fun al => al.base == v && al.len == n)

/-- Notion of the spec: the pool holds a contiguous free block of at least
`n` bytes, that is a range of `n` bytes inside the pool that overlaps no live
allocation. -/
def hasFreeBlock (s : State) (n : Nat) : Prop :=
  ∃ a, s.poolBase ≤ a ∧ a + n ≤ s.poolBase + s.poolSize ∧
    ∀ al ∈ s.live, a + n ≤ al.base ∨ al.base + al.len ≤ a

/-- Notion of the spec: the initial state of section 3, no live allocation
and every accounting counter zero. -/
def isInitial (s : State) : Bool :=
  s.live.isEmpty && s.counters.all (fun c => c.2 == 0)

/-- Notion of the spec: a fresh pool of `size` bytes at address `base`,
zero-filled, with nothing allocated and no counter written. -/
def fresh (base : Nat) (size : Nat) : State :=
  ⟨base, size, [], [], [], List.replicate size 0⟩

/-- Notion of the spec: the state of the concrete scenario of section 8
after `Alloc(1024, classA)` and `Alloc(2048, classA)` on a 4096-byte pool, as
the spec describes it: the pool starts at address 4096, the ranges
`4096..5120` and `5120..7168` are live, the counter is 3072 and 1024 bytes are
free.  The counter of `classA` is the cell at address `classA`. -/
def scenario (classA : Nat) : State :=
  ⟨4096, 4096, [⟨4096, 1024, classA⟩, ⟨5120, 2048, classA⟩], [(classA, 3072)], [],
    List.replicate 4096 0⟩

/-- The text the file gives to `runtime·throw` for the primitive `name`. -/
def notImplemented (name : String) : String :=
  "runtime: " ++ name ++ " not implemented on freertos"

/-- The message `msg` contains `name` as a contiguous piece of text. -/
def mentions (msg : String) (name : String) : Prop :=
  name.toList <:+: msg.toList

/-- One call of a primitive by the arena manager, with its arguments. -/
inductive Call where
  | alloc (n : Nat) (stat : Nat)
  | unused (v : Nat) (n : Nat)
  | used (v : Nat) (n : Nat)
  | free (v : Nat) (n : Nat) (stat : Nat)
  | fault (v : Nat) (n : Nat)
  | reserve (v : Nat) (n : Nat) (reserved : Nat)
  | map (v : Nat) (n : Nat) (reserved : Bool) (stat : Nat)
deriving DecidableEq, Repr

/-- Notion of the spec: the range `al` has just been returned by a successful
`Alloc` or `Map` and is live from now on.  Only the list of live ranges is
extended; the accounting counters are memory the primitive itself has to
update through `stat`. -/
def recordLive (al : Allocation) : Exec Unit :=
  fun s => .returned () ⟨s.poolBase, s.poolSize, al :: s.live, s.counters, s.flags, s.mem⟩

/-- Notion of the spec: a `Free` of the range `(v, n)` charged to `stat` has
returned, so the range is no longer live. -/
def recordFreed (v : Nat) (n : Nat) (stat : Nat) : Exec Unit :=
  fun s =>
    .returned () ⟨s.poolBase, s.poolSize, s.live.erase ⟨v, n, stat⟩, s.counters, s.flags,
      s.mem⟩

/-- Executing one call: the primitive is run, and when it returns the list of
live ranges follows what it returned.  The address returned by `SysAlloc`
becomes a live range of `n` bytes charged to `stat`; a returned `SysFree`
ends the life of its range; a returned `SysMap` of a range that was not
reserved makes that range live (section 4.1: it then behaves like `Alloc` at
the fixed address).  `SysReserve` carries no counter and its result is
discarded. -/
def Call.exec : Call → Exec Unit
  | .alloc n stat => do
    let a ← SysAlloc n stat
    recordLive ⟨a, n, stat⟩
  | .unused v n => SysUnused v n
  | .used v n => SysUsed v n
  | .free v n stat => do
    SysFree v n stat
    recordFreed v n stat
  | .fault v n => SysFault v n
  | .reserve v n reserved => do
    let _ ← SysReserve v n reserved
    pure ()
  | .map v n reserved stat => do
    SysMap v n reserved stat
    if reserved then pure () else recordLive ⟨v, n, stat⟩

/-- A program: a finite sequence of calls executed one after the other; the
first abort ends the run. -/
def runCalls : List Call → Exec Unit
  | [] => pure ()
  | c :: cs => do
    c.exec
    runCalls cs

/-! ## What each primitive does, for every input -/

theorem SysAlloc_aborts (n stat : Nat) (s : State) :
    SysAlloc n stat s = .thrown "runtime: SysAlloc not implemented on freertos" s :=
  rfl

theorem SysFree_aborts (v n stat : Nat) (s : State) :
    SysFree v n stat s = .thrown "runtime: SysFree not implemented on freertos" s :=
  rfl

theorem SysFault_aborts (v n : Nat) (s : State) :
    SysFault v n s = .thrown "runtime: SysFault not implemented on freertos" s :=
  rfl

theorem SysReserve_aborts (v n reserved : Nat) (s : State) :
    SysReserve v n reserved s
      = .thrown "runtime: SysReserve not implemented on freertos" s :=
  rfl

theorem SysMap_aborts (v n : Nat) (reserved : Bool) (stat : Nat) (s : State) :
    SysMap v n reserved stat s = .thrown "runtime: SysMap not implemented on freertos" s :=
  rfl

theorem SysUnused_returns (v n : Nat) (s : State) : SysUnused v n s = .returned () s :=
  rfl

theorem SysUsed_returns (v n : Nat) (s : State) : SysUsed v n s = .returned () s :=
  rfl

/-- A call either aborts in the state it started from, or returns in the state
it started from. -/
theorem Call.exec_cases (c : Call) (s : State) :
    c.exec s = .returned () s ∨ ∃ msg, c.exec s = .thrown msg s := by
  cases c with
  | alloc n stat => exact Or.inr ⟨_, rfl⟩
  | unused v n => exact Or.inl rfl
  | used v n => exact Or.inl rfl
  | free v n stat => exact Or.inr ⟨_, rfl⟩
  | fault v n => exact Or.inr ⟨_, rfl⟩
  | reserve v n reserved => exact Or.inr ⟨_, rfl⟩
  | map v n reserved stat => exact Or.inr ⟨_, rfl⟩

theorem runCalls_cons (c : Call) (cs : List Call) (s : State) :
    runCalls (c :: cs) s = Exec.bind c.exec (fun _ => runCalls cs) s :=
  rfl

/-- No run of calls changes the state, whether it ends by returning or by an
abort. -/
theorem runCalls_state (cs : List Call) (s : State) : (runCalls cs s).state = s := by
  induction cs with
  | nil => rfl
  | cons c cs ih =>
    rw [runCalls_cons]
    rcases Call.exec_cases c s with h | ⟨msg, h⟩
    · simp only [Exec.bind, h]
      exact ih
    · simp only [Exec.bind, h]
      rfl

theorem counter_of_all_zero (cells : List (Nat × Nat)) (stat : Nat)
    (h : cells.all (fun c => c.2 == 0) = true) : (cells.lookup stat).getD 0 = 0 := by
  induction cells with
  | nil => rfl
  | cons c cells ih =>
    obtain ⟨k, x⟩ := c
    simp only [List.all_cons, Bool.and_eq_true, beq_iff_eq] at h
    simp only [List.lookup_cons]
    by_cases hk : stat == k
    · simp only [hk, Option.getD_some]
      exact h.1
    · simp only [hk]
      exact ih h.2

/-- In an initial state the accounting counter equals the live bytes: both are
zero. -/
theorem accounted_of_isInitial (s : State) (h : isInitial s = true) (stat : Nat) :
    counter s stat = liveBytes s stat := by
  simp only [isInitial, Bool.and_eq_true, List.isEmpty_iff] at h
  have hc : counter s stat = 0 := counter_of_all_zero s.counters stat h.2
  have hl : liveBytes s stat = 0 := by
    simp [liveBytes, h.1]
  rw [hc, hl]

/-- Every run of calls keeps the accounting invariant of the state it starts
in, whether the run ends by returning or by an abort. -/
theorem runCalls_preserves_accounting (cs : List Call) (s : State) (stat : Nat)
    (h : counter s stat = liveBytes s stat) :
    counter (runCalls cs s).state stat = liveBytes (runCalls cs s).state stat := by
  rw [runCalls_state]
  exact h

/-- The accounting invariant constrains the primitives: once a range of positive
size is recorded as live while the counter it is charged to is left as it was,
the counter no longer equals the live bytes.  A `SysAlloc` that returned an
address without adding `n` to `*stat` would therefore break the invariant. -/
theorem recordLive_breaks_accounting (al : Allocation) (s : State) (hn : 0 < al.len)
    (h : counter s al.stat = liveBytes s al.stat) :
    counter (recordLive al s).state al.stat ≠ liveBytes (recordLive al s).state al.stat := by
  have hc : counter (recordLive al s).state al.stat = counter s al.stat := rfl
  have hl : liveBytes (recordLive al s).state al.stat = al.len + liveBytes s al.stat := by
    simp [liveBytes, recordLive, Outcome.state]
  rw [hc, hl, h]
  omega

theorem fresh_live (base size : Nat) : (fresh base size).live = [] :=
  rfl

/-- A fresh pool has a free block of every size up to its own: the block at its
base. -/
theorem fresh_hasFreeBlock (base size n : Nat) (h : n ≤ size) :
    hasFreeBlock (fresh base size) n := by
  refine ⟨base, Nat.le_refl _, Nat.add_le_add_left h base, ?_⟩
  intro al hal
  rw [fresh_live] at hal
  cases hal

theorem scenario_live (classA : Nat) :
    (scenario classA).live = [⟨4096, 1024, classA⟩, ⟨5120, 2048, classA⟩] :=
  rfl

/-! ## The properties of the specification -/

/-- C1, counterexample: on a fresh 4096-byte pool, which holds a free block of
1024 bytes, `SysAlloc(1024, classA)` does not return an address with the
counter of `classA` (the cell at address 7) 1024 larger: it does not return at
all. -/
theorem C1_counterexample :
    hasFreeBlock (fresh 4096 4096) 1024 ∧
    ¬ ∃ a s', SysAlloc 1024 7 (fresh 4096 4096) = Outcome.returned a s' ∧
        counter s' 7 = counter (fresh 4096 4096) 7 + 1024 := by
  refine ⟨fresh_hasFreeBlock 4096 4096 1024 (by decide), ?_⟩
  rintro ⟨a, s', h, _⟩
  rw [SysAlloc_aborts] at h
  cases h

/-- C1, amended: for every size `n`, accounting counter `stat` and state in which
the pool holds a contiguous free block of at least `n` bytes, `SysAlloc` does
not return an address: it terminates the process through `runtime·throw` with
the message "runtime: SysAlloc not implemented on freertos", and the counter
is the same at the abort as before the call. -/
theorem C1_alloc_aborts_despite_free_block (n stat : Nat) (s : State)
    (h : hasFreeBlock s n) :
    SysAlloc n stat s = .thrown "runtime: SysAlloc not implemented on freertos" s ∧
    (SysAlloc n stat s).isReturned = false ∧
    counter (SysAlloc n stat s).state stat = counter s stat :=
  ⟨rfl, rfl, rfl⟩

/-- C1, amended, on the fresh 4096-byte pool: `SysAlloc(1024, classA)` aborts
and the counter of `classA` stays 0. -/
theorem C1_alloc_aborts_despite_free_block_witness :
    hasFreeBlock (fresh 4096 4096) 1024 ∧
    SysAlloc 1024 7 (fresh 4096 4096)
      = .thrown "runtime: SysAlloc not implemented on freertos" (fresh 4096 4096) ∧
    (SysAlloc 1024 7 (fresh 4096 4096)).isReturned = false ∧
    counter (SysAlloc 1024 7 (fresh 4096 4096)).state 7 = counter (fresh 4096 4096) 7 :=
  have hfree : hasFreeBlock (fresh 4096 4096) 1024 :=
    fresh_hasFreeBlock 4096 4096 1024 (by decide)
  ⟨hfree, C1_alloc_aborts_despite_free_block 1024 7 (fresh 4096 4096) hfree⟩

/-- The pool of the scenario has no free block of 2048 bytes: every candidate
overlaps the live range `5120..7168`. -/
theorem scenario_full (classA : Nat) : ¬ hasFreeBlock (scenario classA) 2048 := by
  rintro ⟨a, h1, h2, h3⟩
  have h := h3 ⟨5120, 2048, classA⟩ (by rw [scenario_live]; simp)
  have hb : (scenario classA).poolBase = 4096 := rfl
  have hz : (scenario classA).poolSize = 4096 := rfl
  rw [hb, hz] at h2
  simp only at h
  omega

/-- C2, counterexample: in the state of the scenario, where the pool has no free
block of 2048 bytes, `SysAlloc(2048, classA)` does not return to its caller
with a failure value: the process is terminated. -/
theorem C2_counterexample :
    ¬ hasFreeBlock (scenario 7) 2048 ∧
    (¬ ∃ r s', SysAlloc 2048 7 (scenario 7) = Outcome.returned r s') ∧
    (SysAlloc 2048 7 (scenario 7)).abortMsg
      = some "runtime: SysAlloc not implemented on freertos" := by
  refine ⟨scenario_full 7, ?_, rfl⟩
  rintro ⟨r, s', h⟩
  rw [SysAlloc_aborts] at h
  cases h

/-- C2, amended: for every size `n` and every state in which the pool has no
contiguous free block of `n` bytes, `SysAlloc` does not return to its caller and
reports no typed failure: it terminates the process through `runtime·throw`
with the message "runtime: SysAlloc not implemented on freertos". -/
theorem C2_alloc_aborts_when_exhausted (n stat : Nat) (s : State)
    (h : ¬ hasFreeBlock s n) :
    (SysAlloc n stat s).abortMsg = some "runtime: SysAlloc not implemented on freertos" ∧
    ¬ ∃ r s', SysAlloc n stat s = Outcome.returned r s' := by
  refine ⟨rfl, ?_⟩
  rintro ⟨r, s', hr⟩
  rw [SysAlloc_aborts] at hr
  cases hr

/-- C2, amended, in the state of the scenario with `n = 2048`. -/
theorem C2_alloc_aborts_when_exhausted_witness :
    ¬ hasFreeBlock (scenario 7) 2048 ∧
    ((SysAlloc 2048 7 (scenario 7)).abortMsg
        = some "runtime: SysAlloc not implemented on freertos" ∧
      ¬ ∃ r s', SysAlloc 2048 7 (scenario 7) = Outcome.returned r s') :=
  ⟨scenario_full 7, C2_alloc_aborts_when_exhausted 2048 7 (scenario 7) (scenario_full 7)⟩

/-- C3: for every address `v`, size `n` and state such that the range `(v, n)` is
not a live allocation, `SysFree` terminates the process with a fatal error
instead of returning, and every accounting counter has the same value at the
abort as before the call. -/
theorem C3_free_of_dead_range_aborts (v n stat : Nat) (s : State)
    (h : isLive s v n = false) :
    (SysFree v n stat s).isReturned = false ∧
    ∃ msg s', SysFree v n stat s = Outcome.thrown msg s' ∧
      ∀ c, counter s' c = counter s c :=
  ⟨rfl, _, s, SysFree_aborts v n stat s, fun _ => rfl⟩

/-- C3 in the state of the scenario: freeing the live base 4096 with the wrong
size 16 aborts. -/
theorem C3_free_of_dead_range_aborts_witness :
    isLive (scenario 7) 4096 16 = false ∧
    (SysFree 4096 16 7 (scenario 7)).isReturned = false ∧
    ∃ msg s', SysFree 4096 16 7 (scenario 7) = Outcome.thrown msg s' ∧
      ∀ c, counter s' c = counter (scenario 7) c :=
  ⟨rfl, C3_free_of_dead_range_aborts 4096 16 7 (scenario 7) rfl⟩

/-- C5: `SysUnused` is a pure no-op.  For every address, size and state it
returns normally and the state it returns in is the state it was called in: the
live ranges, the memory contents and the accounting counters are the same. -/
theorem C5_unused_is_noop (v n : Nat) (s : State) :
    SysUnused v n s = Outcome.returned () s ∧
    (SysUnused v n s).state.live = s.live ∧
    (SysUnused v n s).state.mem = s.mem ∧
    (SysUnused v n s).state.counters = s.counters :=
  ⟨rfl, rfl, rfl, rfl⟩

/-- C6: `SysUnused(v, n)` followed immediately by `SysUsed(v, n)` returns
normally in the state before the two calls: memory contents, live ranges and
accounting counters are unchanged. -/
theorem C6_unused_then_used_is_noop (v n : Nat) (s : State) :
    (SysUnused v n >>= fun _ => SysUsed v n) s = Outcome.returned () s ∧
    ((SysUnused v n >>= fun _ => SysUsed v n) s).state.mem = s.mem ∧
    ((SysUnused v n >>= fun _ => SysUsed v n) s).state.live = s.live ∧
    ((SysUnused v n >>= fun _ => SysUsed v n) s).state.counters = s.counters :=
  ⟨rfl, rfl, rfl, rfl⟩

/-- C7, counterexample: on a fresh 4096-byte pool, `SysMap` called for the range
`(4096, 1024)` with the already-reserved flag set to true does not return
normally in the unchanged state: it does not return at all. -/
theorem C7_counterexample :
    SysMap 4096 1024 true 7 (fresh 4096 4096) ≠ Outcome.returned () (fresh 4096 4096) ∧
    (SysMap 4096 1024 true 7 (fresh 4096 4096)).isReturned = false := by
  refine ⟨?_, rfl⟩
  intro h
  rw [SysMap_aborts] at h
  cases h

/-- C7, amended: for every address, size, accounting counter and state, `SysMap`
called with the already-reserved flag set to true does not return: it
terminates the process through `runtime·throw` with the message
"runtime: SysMap not implemented on freertos"; the state at the abort is the
state it was called in. -/
theorem C7_map_reserved_aborts (v n stat : Nat) (s : State) :
    SysMap v n true stat s
      = Outcome.thrown "runtime: SysMap not implemented on freertos" s ∧
    (SysMap v n true stat s).isReturned = false :=
  ⟨rfl, rfl⟩

/-- C8, counterexample: on a fresh 4096-byte pool, `SysReserve` with hint 0, size
4096 and the reserved flag at address 8 does not return to its caller, neither
with a failure nor with an address: the process is terminated. -/
theorem C8_counterexample :
    (¬ ∃ a s', SysReserve 0 4096 8 (fresh 4096 4096) = Outcome.returned a s') ∧
    (SysReserve 0 4096 8 (fresh 4096 4096)).abortMsg
      = some "runtime: SysReserve not implemented on freertos" := by
  refine ⟨?_, rfl⟩
  rintro ⟨a, s', h⟩
  rw [SysReserve_aborts] at h
  cases h

/-- C8, amended: for every hint address and size, `SysReserve` follows one fixed
policy: it never returns to its caller, neither reporting failure nor returning
an address, but terminates the process through `runtime·throw` with the
message "runtime: SysReserve not implemented on freertos", the reserved flag
being unwritten at the abort.  So it never returns an address while leaving the
reserved flag unwritten. -/
theorem C8_reserve_always_aborts (v n reserved : Nat) (s : State) :
    SysReserve v n reserved s
      = Outcome.thrown "runtime: SysReserve not implemented on freertos" s ∧
    (¬ ∃ a s', SysReserve v n reserved s = Outcome.returned a s') ∧
    flag (SysReserve v n reserved s).state reserved = flag s reserved := by
  refine ⟨rfl, ?_, rfl⟩
  rintro ⟨a, s', h⟩
  rw [SysReserve_aborts] at h
  cases h

/-- C9, counterexample: in the state of the scenario, `SysFree` of the range
`(4096, 16)` (live base, wrong size) and `SysFree` of the range `(8192, 32)`
(never allocated) are two contract violations with different address and size,
and both terminate the process with the same message. -/
theorem C9_counterexample :
    isLive (scenario 7) 4096 16 = false ∧ isLive (scenario 7) 8192 32 = false ∧
    ((4096, 16) : Nat × Nat) ≠ (8192, 32) ∧
    (SysFree 4096 16 7 (scenario 7)).abortMsg ≠ none ∧
    (SysFree 4096 16 7 (scenario 7)).abortMsg
      = (SysFree 8192 32 7 (scenario 7)).abortMsg := by
  refine ⟨rfl, rfl, by decide, ?_, rfl⟩
  rw [SysFree_aborts]
  simp [Outcome.abortMsg]

/-- C9, amended: whenever `SysFree` or `SysMap` terminates the process, the
message it passes to `runtime·throw` identifies the primitive only: the
message names the primitive, and it is the same fixed text for all arguments
and states, so two calls of the same primitive with different address and size
produce the same message and the address range is not identified. -/
theorem C9_message_names_primitive_only (v n stat v' n' stat' : Nat)
    (r r' : Bool) (s s' : State) :
    (SysFree v n stat s).abortMsg = some "runtime: SysFree not implemented on freertos" ∧
    mentions "runtime: SysFree not implemented on freertos" "SysFree" ∧
    (SysFree v n stat s).abortMsg = (SysFree v' n' stat' s').abortMsg ∧
    (SysMap v n r stat s).abortMsg = some "runtime: SysMap not implemented on freertos" ∧
    mentions "runtime: SysMap not implemented on freertos" "SysMap" ∧
    (SysMap v n r stat s).abortMsg = (SysMap v' n' r' stat' s').abortMsg :=
  ⟨rfl, ⟨"runtime: ".toList, " not implemented on freertos".toList, by decide⟩, rfl,
    rfl, ⟨"runtime: ".toList, " not implemented on freertos".toList, by decide⟩, rfl⟩

/-- C10: each of `SysAlloc`, `SysFree`, `SysFault`, `SysReserve` and `SysMap`
aborts through `runtime·throw` for every input and every state.  None returns
a value (the `return nil` statements are not reached), the state at the abort
is the state of the call, so nothing was written through `stat` or `reserved`,
and the five messages are pairwise distinct, each being
"runtime: <Name> not implemented on freertos" with the name of the primitive. -/
theorem C10_five_primitives_always_abort (v n stat reservedPtr : Nat)
    (reserved : Bool) (s : State) :
    SysAlloc n stat s = Outcome.thrown (notImplemented "SysAlloc") s ∧
    SysFree v n stat s = Outcome.thrown (notImplemented "SysFree") s ∧
    SysFault v n s = Outcome.thrown (notImplemented "SysFault") s ∧
    SysReserve v n reservedPtr s = Outcome.thrown (notImplemented "SysReserve") s ∧
    SysMap v n reserved stat s = Outcome.thrown (notImplemented "SysMap") s ∧
    [notImplemented "SysAlloc", notImplemented "SysFree", notImplemented "SysFault",
      notImplemented "SysReserve", notImplemented "SysMap"].Pairwise (fun a b => a ≠ b) := by
  refine ⟨?_, ?_, ?_, ?_, ?_, ?_⟩
  · rw [SysAlloc_aborts]; congr 1
  · rw [SysFree_aborts]; congr 1
  · rw [SysFault_aborts]; congr 1
  · rw [SysReserve_aborts]; congr 1
  · rw [SysMap_aborts]; congr 1
  · decide

end runtime
